import Mathlib

/-
Verification of the rate-limiting request scheduler in
src/mcp-server/brave-search-rate-limited/brave-search-rate-limited.js.

Times are modelled as integer milliseconds.  The environment (the clock)
is modelled by explicit non-negative advances: for each entry the drain
loop processes, the pair `(d1, d2)` gives the clock advance since the
previous dispatch as observed by the Date.now() read at the top of the
loop body (line 45), and the extra advance of the second Date.now() read
taken after the wait (line 55).  Using Nat for the advances encodes the
monotonicity of the clock.
-/

/-- Configuration constant RATE_LIMIT_MS (line 11 of the source). -/
def RATE_LIMIT_MS : Int := 1500

/-- State of class RateLimiter (constructor, lines 16-21): minDelay,
lastCallTime (initially 0), the pending queue (modelled as the list of
request identifiers whose resolvers were pushed), and the processing flag. -/
structure RL where
  minDelay : Int
  lastCallTime : Int
  pending : List Nat
  processing : Bool
deriving Repr, DecidableEq

/-- The constructor `new RateLimiter(minDelayMs)` (lines 16-21): it stores
the argument unchanged and performs no validation. -/
def RateLimiter.new (minDelayMs : Int) : RL :=
  { minDelay := minDelayMs, lastCallTime := 0, pending := [], processing := false }

/-- Lines 45-52: the wait the drain loop performs before a dispatch.
With `timeSinceLastCall = now - lastCallTime`, the loop waits
`minDelay - timeSinceLastCall` when `timeSinceLastCall < minDelay`,
and otherwise does not wait. -/
def computedWait (minDelay lastCallTime now : Int) : Int :=
  if now - lastCallTime < minDelay then minDelay - (now - lastCallTime) else 0

/-- Lines 41-59: the body of the drain loop of processQueue.  It shifts the
head of `pending`, reads the clock (`now = last + d1`), waits `computedWait`,
re-reads the clock (`t = now + wait + d2`), sets `lastCallTime := t` and
resolves the request.  Returns the final `lastCallTime` together with the
dispatch log: one entry `(requestId, wait, dispatchTime)` per resolved
request, in the order the loop resolved them. -/
def drainAux (minDelay : Int) : Int → List Nat → List (Nat × Nat) → Int × List (Nat × Int × Int)
  | last, [], _ => (last, [])
  | last, rid :: rest, env =>
    let d := env.headD (0, 0)
    let now := last + (d.1 : Int)
    let w := computedWait minDelay last now
    let t := now + w + (d.2 : Int)
    let r := drainAux minDelay t rest env.tail
    (r.1, (rid, w, t) :: r.2)

/-- Lines 33-62: processQueue.  If the processing flag is set it returns
immediately; otherwise it sets the flag, drains the whole queue, clears the
flag and returns the updated state together with the dispatch log. -/
def processQueue (st : RL) (env : List (Nat × Nat)) : RL × List (Nat × Int × Int) :=
  if st.processing then (st, [])
  else
    let r := drainAux st.minDelay st.lastCallTime st.pending env
    ({ st with lastCallTime := r.1, pending := [], processing := false }, r.2)

/-- Lines 23-31: throttle.  The request's resolver is pushed to the back of
`pending` and processQueue is triggered. -/
def throttle (st : RL) (rid : Nat) (env : List (Nat × Nat)) : RL × List (Nat × Int × Int) :=
  processQueue { st with pending := st.pending ++ [rid] } env

/-- The dispatch timestamps of a drain run, in dispatch order. -/
def dispatchTimes (minDelay last : Int) (q : List Nat) (env : List (Nat × Nat)) : List Int :=
  (drainAux minDelay last q env).2.map (fun e => e.2.2)

theorem drainAux_chain (md last : Int) (q : List Nat) (env : List (Nat × Nat)) :
    List.Chain' (fun a b => a + md ≤ b) (last :: dispatchTimes md last q env) := by
  induction q generalizing last env with
  | nil => simp [dispatchTimes, drainAux]
  | cons rid rest ih =>
    have h := ih (last + ((env.headD (0, 0)).1 : Int) +
      computedWait md last (last + ((env.headD (0, 0)).1 : Int)) +
      ((env.headD (0, 0)).2 : Int)) env.tail
    simp only [dispatchTimes, drainAux, List.map] at h ⊢
    rw [List.chain'_cons]
    refine ⟨?_, h⟩
    simp only [computedWait]
    split <;> omega

theorem drainAux_ids (md last : Int) (q : List Nat) (env : List (Nat × Nat)) :
    (drainAux md last q env).2.map (fun e => e.1) = q := by
  induction q generalizing last env with
  | nil => simp [drainAux]
  | cons rid rest ih => simp [drainAux, ih]

/-- C1: Spacing invariant — along any drain run, every adjacent pair of
dispatch timestamps (including the gap from the previous lastCallTime to the
first new dispatch) is at least minDelay apart: the chain
lastCallTime, t1, t2, ... satisfies a + minDelay ≤ b for each adjacent pair. -/
theorem spacing_invariant (minDelay last : Int) (q : List Nat) (env : List (Nat × Nat)) :
    List.Chain' (fun a b => a + minDelay ≤ b) (last :: dispatchTimes minDelay last q env) :=
  drainAux_chain minDelay last q env

/-- C2: FIFO invariant — the drain loop resolves requests in exactly the
order they sit in the queue (throttle appends at the back, the loop shifts
from the front), and with a non-negative minDelay the dispatch timestamps
are pairwise non-decreasing along that order: an earlier-submitted request
is dispatched no later than a later one. -/
theorem fifo_invariant (minDelay last : Int) (q : List Nat) (env : List (Nat × Nat))
    (h : 0 ≤ minDelay) :
    (drainAux minDelay last q env).2.map (fun e => e.1) = q ∧
    List.Pairwise (fun a b => a ≤ b) (dispatchTimes minDelay last q env) ∧
    (throttle { minDelay := minDelay, lastCallTime := last, pending := q, processing := true } 0 env).1.pending = q ++ [0] := by
  refine ⟨drainAux_ids minDelay last q env, ?_, by simp [throttle, processQueue]⟩
  have hc : List.Chain' (fun a b : Int => a ≤ b) (last :: dispatchTimes minDelay last q env) :=
    (drainAux_chain minDelay last q env).imp (fun a b hab => by omega)
  have := List.chain'_iff_pairwise.mp hc.tail
  simpa using this

theorem fifo_invariant_witness :
    (0 : Int) ≤ 1000 ∧
    ((drainAux 1000 0 [4, 7] [(0, 0), (0, 0)]).2.map (fun e => e.1) = [4, 7] ∧
     List.Pairwise (fun a b => a ≤ b) (dispatchTimes 1000 0 [4, 7] [(0, 0), (0, 0)]) ∧
     (throttle { minDelay := 1000, lastCallTime := 0, pending := [4, 7], processing := true } 0 [(0, 0), (0, 0)]).1.pending = [4, 7] ++ [0]) :=
  ⟨by decide, fifo_invariant 1000 0 [4, 7] [(0, 0), (0, 0)] (by decide)⟩

/-- C4: Single drain loop — if processQueue is triggered while the
processing flag is already set, it returns immediately: the state is
unchanged and nothing is dispatched, so the trigger is idempotent and at
most one drain loop is ever active. -/
theorem single_drain_loop (st : RL) (env : List (Nat × Nat)) (h : st.processing = true) :
    processQueue st env = (st, []) := by
  simp [processQueue, h]

theorem single_drain_loop_witness :
    processQueue { minDelay := 1000, lastCallTime := 5, pending := [9], processing := true } [(0, 0)] =
      ({ minDelay := 1000, lastCallTime := 5, pending := [9], processing := true }, []) :=
  single_drain_loop _ [(0, 0)] rfl

/-- C6 counterexample: a freshly constructed scheduler has lastCallTime = 0,
not a "never" sentinel treated as infinitely long ago; with minDelay = 1000
and the first request reaching the head of the queue at clock value 500, the
drain loop computes a wait of 500, not 0. -/
theorem first_dispatch_wait_cex :
    (RateLimiter.new 1000).lastCallTime = 0 ∧
    computedWait (RateLimiter.new 1000).minDelay (RateLimiter.new 1000).lastCallTime 500 = 500 := by
  exact ⟨rfl, by decide⟩

/-- C6 amended: lastCallTime initializes to 0 (the clock epoch), so the
first dispatch waits max(0, minDelay - now); for every clock value now with
now ≥ minDelay — in particular every realistic epoch timestamp — the first
request is dispatched with zero additional wait. -/
theorem first_dispatch_no_wait (minDelay : Int) (now : Nat) (h : minDelay ≤ (now : Int)) :
    (RateLimiter.new minDelay).lastCallTime = 0 ∧
    computedWait (RateLimiter.new minDelay).minDelay (RateLimiter.new minDelay).lastCallTime (now : Int) = 0 := by
  refine ⟨rfl, ?_⟩
  simp only [RateLimiter.new, computedWait]
  split <;> omega

theorem first_dispatch_no_wait_witness :
    (1000 : Int) ≤ (1700000000000 : Nat) ∧
    ((RateLimiter.new 1000).lastCallTime = 0 ∧
     computedWait (RateLimiter.new 1000).minDelay (RateLimiter.new 1000).lastCallTime ((1700000000000 : Nat) : Int) = 0) :=
  ⟨by decide, first_dispatch_no_wait 1000 1700000000000 (by decide)⟩

/-- C7 counterexample: the constructor performs no validation — constructing
a scheduler with minDelay = -5 does not fail; it succeeds and stores -5. -/
theorem constructor_accepts_negative_cex :
    RateLimiter.new (-5) =
      { minDelay := -5, lastCallTime := 0, pending := [], processing := false } := rfl

/-- C7 amended: construction never rejects any minDelay; a negative value is
accepted, stored unchanged, and deferred to runtime, where it merely causes
the drain loop to compute zero wait at every dispatch. -/
theorem constructor_no_validation (minDelay last : Int) (d : Nat) (h : minDelay < 0) :
    RateLimiter.new minDelay =
      { minDelay := minDelay, lastCallTime := 0, pending := [], processing := false } ∧
    computedWait minDelay last (last + (d : Int)) = 0 := by
  refine ⟨rfl, ?_⟩
  simp only [computedWait]
  split <;> omega

theorem constructor_no_validation_witness :
    (-5 : Int) < 0 ∧
    (RateLimiter.new (-5) =
       { minDelay := -5, lastCallTime := 0, pending := [], processing := false } ∧
     computedWait (-5) 0 (0 + ((3 : Nat) : Int)) = 0) :=
  ⟨by decide, constructor_no_validation (-5) 0 3 (by decide)⟩

theorem drainAux_waits_zero (last : Int) (q : List Nat) (env : List (Nat × Nat)) :
    ∀ e ∈ (drainAux 0 last q env).2, e.2.1 = 0 := by
  induction q generalizing last env with
  | nil => simp [drainAux]
  | cons rid rest ih =>
    intro e he
    simp only [drainAux, List.mem_cons] at he
    rcases he with he | he
    · subst he
      simp only [computedWait]
      split <;> omega
    · exact ih _ env.tail e he

/-- C8: Zero-delay passthrough — with minDelay = 0 every computed wait in a
drain run is 0 (the loop never suspends) while requests are still released
one at a time in queue order; and in general, whenever the elapsed time
since the last dispatch already meets or exceeds minDelay, the computed
wait is 0. -/
theorem zero_delay_passthrough (last now minDelay : Int) (q : List Nat)
    (env : List (Nat × Nat)) (h : minDelay ≤ now - last) :
    (∀ e ∈ (drainAux 0 last q env).2, e.2.1 = 0) ∧
    (drainAux 0 last q env).2.map (fun e => e.1) = q ∧
    computedWait minDelay last now = 0 := by
  refine ⟨drainAux_waits_zero last q env, drainAux_ids 0 last q env, ?_⟩
  simp only [computedWait]
  split <;> omega

theorem zero_delay_passthrough_witness :
    (1000 : Int) ≤ 2500 - 0 ∧
    ((∀ e ∈ (drainAux 0 7 [1, 2, 3] [(5, 0), (0, 0), (2, 1)]).2, e.2.1 = 0) ∧
     (drainAux 0 7 [1, 2, 3] [(5, 0), (0, 0), (2, 1)]).2.map (fun e => e.1) = [1, 2, 3] ∧
     computedWait 1000 0 2500 = 0) :=
  ⟨by decide, zero_delay_passthrough 7 2500 1000 [1, 2, 3] [(5, 0), (0, 0), (2, 1)] (by decide)⟩

/-- Result returned by the tool handler: the isError flag and the text of
the single content item (lines 141-149, 167-174, 177-185). -/
structure CallResult where
  isError : Bool
  text : String
deriving Repr, DecidableEq

/-- Outcome of the downstream fetch (lines 129-163): either a response with
its ok flag, HTTP status, body text and parsed JSON data (none models a
null/empty parse), or a transport-level failure with its error message. -/
inductive FetchOutcome
  | response (ok : Bool) (status : Nat) (body : String) (data : Option String)
  | transportFailure (msg : String)
deriving Repr, DecidableEq

/-- The fixed text returned on HTTP 429 (line 145). -/
def rateLimitReachedText : String :=
  "Rate Limit reached! The Brave API currently does not allow any more requests. Please wait a moment and try again."

/-- Lines 137-186: classification of the fetch outcome.  A non-ok response
with status 429 returns the fixed rate-limit error result; any other non-ok
response throws "Brave API Error: status - body", which the catch block
(lines 175-186) turns into an error result prefixed "Search error: "; an ok
response with null data throws "No data received from Brave API" (caught the
same way) and otherwise yields the data as a success result; a transport
failure is caught and prefixed "Search error: " likewise. -/
def handleBraveResponse : FetchOutcome → CallResult
  | FetchOutcome.response ok status body data =>
    if !ok then
      if status = 429 then { isError := true, text := rateLimitReachedText }
      else { isError := true, text := "Search error: " ++ ("Brave API Error: " ++ toString status ++ " - " ++ body) }
    else
      match data with
      | none => { isError := true, text := "Search error: " ++ "No data received from Brave API" }
      | some d => { isError := false, text := d }
  | FetchOutcome.transportFailure msg =>
    { isError := true, text := "Search error: " ++ msg }

/-- Lines 129-186: the part of the handler from the fetch onward.  It only
classifies the outcome; it contains no mutation of the rate limiter and no
second fetch (no retry). -/
def afterFetch (st : RL) (o : FetchOutcome) : RL × CallResult :=
  (st, handleBraveResponse o)

/-- Lines 115-190: the CallToolRequestSchema handler.  For tool name
"brave_search" it first awaits rateLimiter.throttle() (line 121) and then
performs the fetch and classifies its outcome; for any other name it throws
"Unknown tool: name" (line 189) without touching the rate limiter. -/
def callToolHandler (st : RL) (name : String) (rid : Nat) (env : List (Nat × Nat))
    (o : FetchOutcome) : RL × Except String CallResult :=
  if name = "brave_search" then
    ((throttle st rid env).1, Except.ok (handleBraveResponse o))
  else
    (st, Except.error ("Unknown tool: " ++ name))

/-- C9: Downstream error classification does not affect scheduling — the
post-fetch handler returns the rate-limiter state unchanged for every
outcome (so neither lastCallTime nor minDelay is altered and no retry is
performed), a 429 response is surfaced as the fixed rate-limit error result,
any other non-ok response is surfaced as an error result carrying status and
body, and a transport failure is surfaced as an error result carrying its
message. -/
theorem error_classification (st : RL) (status : Nat) (body msg : String)
    (data : Option String) (o : FetchOutcome) (h : status ≠ 429) :
    (afterFetch st o).1 = st ∧
    handleBraveResponse (FetchOutcome.response false 429 body data) =
      { isError := true, text := rateLimitReachedText } ∧
    handleBraveResponse (FetchOutcome.response false status body data) =
      { isError := true, text := "Search error: " ++ ("Brave API Error: " ++ toString status ++ " - " ++ body) } ∧
    handleBraveResponse (FetchOutcome.transportFailure msg) =
      { isError := true, text := "Search error: " ++ msg } := by
  refine ⟨rfl, by simp [handleBraveResponse], ?_, rfl⟩
  simp [handleBraveResponse, h]

theorem error_classification_witness :
    (500 : Nat) ≠ 429 ∧
    ((afterFetch (RateLimiter.new 1500) (FetchOutcome.transportFailure ("boom"))).1 = RateLimiter.new 1500 ∧
     handleBraveResponse (FetchOutcome.response false 429 ("b") none) =
       { isError := true, text := rateLimitReachedText } ∧
     handleBraveResponse (FetchOutcome.response false 500 ("b") none) =
       { isError := true, text := "Search error: " ++ ("Brave API Error: " ++ toString 500 ++ " - " ++ "b") } ∧
     handleBraveResponse (FetchOutcome.transportFailure ("boom")) =
       { isError := true, text := "Search error: " ++ "boom" }) :=
  ⟨by decide, error_classification (RateLimiter.new 1500) 500 ("b") ("boom") none
    (FetchOutcome.transportFailure ("boom")) (by decide)⟩

/-- C10: Unknown-tool rejection bypasses the scheduler — for every tool name
other than "brave_search" the handler returns the error "Unknown tool: name"
with the rate-limiter state (queue and lastCallTime) untouched, while a
"brave_search" request goes through throttle (its resulting state is the
post-throttle state) before the fetch outcome is classified. -/
theorem unknown_tool_bypass (st : RL) (name : String) (rid : Nat)
    (env : List (Nat × Nat)) (o : FetchOutcome) (h : name ≠ "brave_search") :
    callToolHandler st name rid env o = (st, Except.error ("Unknown tool: " ++ name)) ∧
    callToolHandler st ("brave_search") rid env o =
      ((throttle st rid env).1, Except.ok (handleBraveResponse o)) := by
  constructor
  · simp [callToolHandler, h]
  · simp [callToolHandler]

theorem unknown_tool_bypass_witness :
    ("weather" : String) ≠ "brave_search" ∧
    (callToolHandler (RateLimiter.new 1500) ("weather") 0 [] (FetchOutcome.transportFailure ("x")) =
       (RateLimiter.new 1500, Except.error ("Unknown tool: " ++ "weather")) ∧
     callToolHandler (RateLimiter.new 1500) ("brave_search") 0 [] (FetchOutcome.transportFailure ("x")) =
       ((throttle (RateLimiter.new 1500) 0 []).1,
        Except.ok (handleBraveResponse (FetchOutcome.transportFailure ("x"))))) :=
  ⟨by decide, unknown_tool_bypass (RateLimiter.new 1500) ("weather") 0 []
    (FetchOutcome.transportFailure ("x")) (by decide)⟩

/-- Modelled from the spec: the request states Queued, Dispatched, Cancelled
of an AdmissionRequest (spec 3) — absent from src, whose pending queue holds
bare promise resolvers with no per-entry state. -/
inductive RState
  | queued
  | dispatched
  | cancelled
deriving Repr, DecidableEq

/-- Modelled from the spec: an AdmissionRequest (spec 3) with its
sequenceNumber, its state and, standing for the one-shot completionSignal,
the count of times that signal has been resolved — absent from src. -/
structure Req where
  seq : Nat
  state : RState
  resolutions : Nat
deriving Repr, DecidableEq

/-- Modelled from the spec: cancel(handle) (spec 4.2, 6) — absent from src.
It withdraws a still-Queued request, resolving its completion signal with
the cancellation outcome; on a request no longer Queued it is a no-op. -/
def cancel (r : Req) : Req :=
  if r.state = RState.queued then
    { r with state := RState.cancelled, resolutions := r.resolutions + 1 }
  else r

/-- Modelled from the spec: step 3d of the drain loop (spec 4.1) — mark the
entry Dispatched and resolve its completion signal successfully. -/
def dispatchEntry (r : Req) : Req :=
  { r with state := RState.dispatched, resolutions := r.resolutions + 1 }

/-- Modelled from the spec: the drain loop's treatment of one popped entry
(spec 4.1 steps 3b-3d): a Cancelled entry is discarded untouched, any other
is dispatched; at most one of cancel and dispatch ever resolves the signal. -/
def drainPop (r : Req) : Req :=
  if r.state = RState.cancelled then r else dispatchEntry r

/-- Modelled from the spec: the full drain loop over stateful entries
(spec 4.1 step 3) — absent from src.  A Cancelled head is discarded without
reading the clock, without waiting and without updating lastDispatchTime;
any other head waits out the interval, is dispatched at the re-read clock
value and becomes the new lastDispatchTime.  Returns the final
lastDispatchTime, the processed requests, and the dispatch log of
(sequenceNumber, dispatchTime) pairs. -/
def specDrain (minDelay : Int) : Int → List Req → List (Nat × Nat) → Int × List Req × List (Nat × Int)
  | last, [], _ => (last, [], [])
  | last, r :: rest, env =>
    if r.state = RState.cancelled then
      let x := specDrain minDelay last rest env
      (x.1, r :: x.2.1, x.2.2)
    else
      let d := env.headD (0, 0)
      let now := last + (d.1 : Int)
      let w := computedWait minDelay last now
      let t := now + w + (d.2 : Int)
      let x := specDrain minDelay t rest env.tail
      (x.1, dispatchEntry r :: x.2.1, (r.seq, t) :: x.2.2)

theorem specDrain_resolved_once (md last : Int) (l : List Req) (env : List (Nat × Nat))
    (hl : ∀ x ∈ l, x.state = RState.queued ∧ x.resolutions = 0) :
    ∀ x ∈ (specDrain md last l env).2.1, x.resolutions = 1 := by
  induction l generalizing last env with
  | nil => simp [specDrain]
  | cons r rest ih =>
    have hr := hl r (List.mem_cons_self r rest)
    have hrest : ∀ x ∈ rest, x.state = RState.queued ∧ x.resolutions = 0 :=
      fun x hx => hl x (List.mem_cons_of_mem r hx)
    intro x hx
    rw [specDrain] at hx
    rw [if_neg (by rw [hr.1]; intro hc; cases hc)] at hx
    simp only [List.mem_cons] at hx
    rcases hx with hx | hx
    · subst hx
      simp [dispatchEntry, hr.2]
    · exact ih _ env.tail hrest x hx

/-- C3: Exactly-once resolution — a request submitted in state Queued with
an unresolved completion signal ends with that signal resolved exactly once
under either order of a race between cancellation and the drain loop
(cancel first: the loop discards the Cancelled entry; dispatch first:
cancel is a no-op), and a full drain pass over any queue of fresh Queued
requests leaves every one of them resolved exactly once, with success or
with the cancellation outcome and never anything else. -/
theorem exactly_once_resolution (r : Req) (md last : Int) (l : List Req)
    (env : List (Nat × Nat)) (hq : r.state = RState.queued) (h0 : r.resolutions = 0)
    (hl : ∀ x ∈ l, x.state = RState.queued ∧ x.resolutions = 0) :
    (drainPop (cancel r)).resolutions = 1 ∧
    (cancel (drainPop r)).resolutions = 1 ∧
    (∀ x ∈ (specDrain md last l env).2.1, x.resolutions = 1) := by
  refine ⟨?_, ?_, specDrain_resolved_once md last l env hl⟩
  · simp [cancel, drainPop, hq, h0]
  · simp [cancel, drainPop, dispatchEntry, hq, h0]

theorem exactly_once_resolution_witness :
    (({ seq := 0, state := RState.queued, resolutions := 0 } : Req).state = RState.queued ∧
     ({ seq := 0, state := RState.queued, resolutions := 0 } : Req).resolutions = 0 ∧
     (∀ x ∈ [({ seq := 1, state := RState.queued, resolutions := 0 } : Req)],
        x.state = RState.queued ∧ x.resolutions = 0)) ∧
    ((drainPop (cancel { seq := 0, state := RState.queued, resolutions := 0 })).resolutions = 1 ∧
     (cancel (drainPop { seq := 0, state := RState.queued, resolutions := 0 })).resolutions = 1 ∧
     (∀ x ∈ (specDrain 1000 0 [{ seq := 1, state := RState.queued, resolutions := 0 }] [(0, 0)]).2.1,
        x.resolutions = 1)) :=
  ⟨⟨rfl, rfl, by decide⟩,
   exactly_once_resolution { seq := 0, state := RState.queued, resolutions := 0 } 1000 0
     [{ seq := 1, state := RState.queued, resolutions := 0 }] [(0, 0)] rfl rfl (by decide)⟩

theorem specDrain_filter (md last : Int) (l : List Req) (env : List (Nat × Nat)) :
    (specDrain md last l env).1 =
      (specDrain md last (l.filter (fun r => r.state != RState.cancelled)) env).1 ∧
    (specDrain md last l env).2.2 =
      (specDrain md last (l.filter (fun r => r.state != RState.cancelled)) env).2.2 := by
  induction l generalizing last env with
  | nil => simp [specDrain]
  | cons r rest ih =>
    by_cases hc : r.state = RState.cancelled
    · have hf : (fun r : Req => r.state != RState.cancelled) r = false := by
        simp [hc]
      rw [List.filter_cons_of_neg (by simp [hc])]
      constructor
      · rw [specDrain, if_pos hc]
        exact (ih last env).1
      · rw [specDrain, if_pos hc]
        exact (ih last env).2
    · rw [List.filter_cons_of_pos (by simp [hc])]
      constructor
      · rw [specDrain, if_neg hc, specDrain, if_neg hc]
        exact (ih _ env.tail).1
      · rw [specDrain, if_neg hc, specDrain, if_neg hc]
        simp only []
        rw [(ih _ env.tail).2]

/-- C5: Cancellation consumes no timing slot — a Cancelled entry is
discarded by the drain loop without waiting and without updating
lastDispatchTime: the final lastDispatchTime and the entire dispatch log
(sequence numbers and times) of a drain run are identical to those of the
same run with all Cancelled entries removed from the queue, so subsequent
dispatches are never shifted later than the minimum-interval rule requires;
and cancel on an already-Dispatched request is a no-op. -/
theorem cancellation_no_slot (md last : Int) (l : List Req) (env : List (Nat × Nat)) :
    (specDrain md last l env).1 =
      (specDrain md last (l.filter (fun r => r.state != RState.cancelled)) env).1 ∧
    (specDrain md last l env).2.2 =
      (specDrain md last (l.filter (fun r => r.state != RState.cancelled)) env).2.2 ∧
    (∀ s n, cancel { seq := s, state := RState.dispatched, resolutions := n } =
      { seq := s, state := RState.dispatched, resolutions := n }) := by
  refine ⟨(specDrain_filter md last l env).1, (specDrain_filter md last l env).2, ?_⟩
  intro s n
  simp [cancel]
